import Mathlib

/-!
# EasyFinance credential and token lifecycle: a verification development

Shallow embedding of the token service (`src/auth/oauth2.py`), the credential
store (`src/controller/sql.py`) and the registration endpoint (`src/api.py`),
together with theorems settling the specified properties of these components.

Time is modelled as seconds since an arbitrary epoch (`Nat`).  JWT signing is
modelled symbolically: a signed token records its claims and the key it was
signed with, and signature verification succeeds exactly when the verifying
key equals the signing key (the HMAC-SHA256 contract).  bcrypt hashing is
modelled as an idealized collision-free salted hash: `checkpw` succeeds
exactly when the candidate password equals the one that was hashed.
-/

namespace EasyFinance

/-- The claims dictionary carried by a token: the `sub` claim (may be absent)
and the `exp` claim set by `create_token` (absent in the input `data` dict). -/
structure Claims where
  sub : Option String
  exp : Option Nat
deriving DecidableEq, Repr

/-- A token string, as handed around by the Python code: either a well-formed
JWT whose payload is `claims` and whose HMAC was produced with `key`
(algorithm HS256 throughout, per `ALGORITHM` in `src/auth/oauth2.py`), or an
unparseable string. -/
inductive TokenStr where
  | signed (claims : Claims) (key : String)
  | malformed (s : String)
deriving DecidableEq, Repr

/-- Errors raised by `jose.jwt.decode`; all are subclasses of `JWTError` in
the library, and the repository code catches them uniformly. -/
inductive JWTError where
  | invalidSignature
  | expired
  | malformedToken
deriving DecidableEq, Repr

/-- `ACCESS_TOKEN_EXPIRE_MINUTES` from `src/auth/oauth2.py` line 11. -/
def ACCESS_TOKEN_EXPIRE_MINUTES : Nat := 15

/-- `REFRESH_TOKEN_EXPIRE_DAYS` from `src/auth/oauth2.py` line 12. -/
def REFRESH_TOKEN_EXPIRE_DAYS : Nat := 7

/-- `create_token(data, token_type)` from `src/auth/oauth2.py` lines 15-24:
copies `data`, sets `exp` to now plus 7 days when `token_type == "REFRESH"`
and now plus 15 minutes otherwise, and returns the claims signed with the
module-wide secret key (here an explicit `key` argument; `now` is the explicit
evaluation time of `datetime.utcnow()`).  The function performs no validation
of `key` or of `token_type`. -/
def create_token (data : Claims) (token_type : String) (key : String)
    (now : Nat) : TokenStr :=
  let expire := now +
    (if token_type = "REFRESH" then REFRESH_TOKEN_EXPIRE_DAYS * 24 * 60 * 60
     else ACCESS_TOKEN_EXPIRE_MINUTES * 60)
  .signed { data with exp := some expire } key

/-- Modelled from the spec: `jose.jwt.decode` is third-party library code
whose source is not part of this repository; only its caller
`get_new_refresh_token` is under `src/`.  Decoding fails on a malformed
string, fails when the verifying key differs from the signing key, and — per
the spec's §4.2 "expiry comparison is `current_time >= expires_at`
(inclusive)" — fails when the token's `exp` claim is less than or equal to
the current time.  A payload with no `exp` claim is not expiry-checked. -/
def jwt_decode (t : TokenStr) (key : String) (now : Nat) :
    Except JWTError Claims :=
  match t with
  | .malformed _ => .error .malformedToken
  | .signed c k =>
    if k = key then
      match c.exp with
      | some e => if e ≤ now then .error .expired else .ok c
      | none => .ok c
    else .error .invalidSignature

/-- The only error `get_new_refresh_token` surfaces: HTTP 401 with detail
"Invalid refresh token" (`HTTPException` at `src/auth/oauth2.py` lines 32
and 34). -/
inductive RenewError where
  | invalidToken
deriving DecidableEq, Repr

/-- The validation phase of `get_new_refresh_token`, `src/auth/oauth2.py`
lines 28-34: decode the token with the module key; any `JWTError` becomes the
401 "Invalid refresh token" error, as does a decoded payload whose `sub`
claim is absent (`payload.get("sub")` returning `None`).  On success the
recovered username is returned.  No `kind` claim exists in the payload and
none is checked. -/
def validate_refresh (refresh_token : TokenStr) (key : String) (now : Nat) :
    Except RenewError String :=
  match jwt_decode refresh_token key now with
  | .error _ => .error .invalidToken
  | .ok payload =>
    match payload.sub with
    | none => .error .invalidToken
    | some username => .ok username

/-- `get_new_refresh_token(refresh_token)` from `src/auth/oauth2.py` lines
27-38: validate the presented token, then mint a new token for the recovered
subject — with `token_type="REFRESH"`, exactly as line 36 of the source
reads. -/
def get_new_refresh_token (refresh_token : TokenStr) (key : String)
    (now : Nat) : Except RenewError TokenStr :=
  match validate_refresh refresh_token key now with
  | .error e => .error e
  | .ok username =>
    .ok (create_token { sub := some username, exp := none } "REFRESH" key now)

/-- The `exp` claim carried by a token string, if any. -/
def tokenExp : TokenStr → Option Nat
  | .signed c _ => c.exp
  | .malformed _ => none

/-- C3: for every subject and kind, issuance sets the `exp` claim to the
issuance time plus exactly 15 minutes for an Access token (`token_type`
`"TOKEN"`, as the login endpoint passes) and exactly 7 days for a Refresh
token (`token_type` `"REFRESH"`), and signs the claims with the process
key; the TTLs are the fixed module constants, not parameters of the call. -/
theorem create_token_fixed_ttls (s key : String) (now : Nat) :
    create_token ⟨some s, none⟩ "TOKEN" key now
      = .signed ⟨some s, some (now + 15 * 60)⟩ key ∧
    create_token ⟨some s, none⟩ "REFRESH" key now
      = .signed ⟨some s, some (now + 7 * 24 * 60 * 60)⟩ key := by
  constructor <;>
    simp [create_token, ACCESS_TOKEN_EXPIRE_MINUTES, REFRESH_TOKEN_EXPIRE_DAYS]

/-- C10: `create_token` applies the 7-day Refresh TTL exactly when
`token_type` is the string `"REFRESH"`; every other `token_type` (including
`"TOKEN"` as used at login, the empty string, or any misspelling) silently
receives the 15-minute Access TTL — the function has no rejection path. -/
theorem create_token_ttl_selector (data : Claims) (tt key : String)
    (now : Nat) :
    (tokenExp (create_token data tt key now) = some (now + 7 * 24 * 60 * 60)
      ↔ tt = "REFRESH") ∧
    (tt ≠ "REFRESH" →
      tokenExp (create_token data tt key now) = some (now + 15 * 60)) := by
  by_cases h : tt = "REFRESH" <;>
    simp [create_token, tokenExp, h, ACCESS_TOKEN_EXPIRE_MINUTES,
      REFRESH_TOKEN_EXPIRE_DAYS]

/-- Witness for C10 at concrete inputs: `"TOKEN"` is not `"REFRESH"`, so a
login-time access token minted at time 0 carries `exp = 900`. -/
theorem create_token_ttl_selector_witness :
    ("TOKEN" : String) ≠ "REFRESH" ∧
    tokenExp (create_token ⟨some "alice", none⟩ "TOKEN" "k" 0)
      = some (0 + 15 * 60) :=
  ⟨by decide,
   (create_token_ttl_selector ⟨some "alice", none⟩ "TOKEN" "k" 0).2
     (by decide)⟩

/-- C4 counterexample: with the Signing Key empty, `create_token` does not
fail — it returns a token signed with the empty key.  There is no key check
and no `ConfigError` path anywhere in `src/auth/oauth2.py`. -/
theorem create_token_signs_with_empty_key :
    create_token ⟨some "alice", none⟩ "TOKEN" "" 0
      = .signed ⟨some "alice", some 900⟩ "" := by
  decide

/-- C4 amended: `create_token` performs no validation of the Signing Key at
all: for every key, including the empty string, every call returns a token
signed with exactly that key, and the function has no error outcome. -/
theorem create_token_no_key_check (data : Claims) (tt key : String)
    (now : Nat) :
    ∃ c, create_token data tt key now = .signed c key :=
  ⟨_, rfl⟩

/-- C5: issuing an Access token (`token_type="TOKEN"`) for a subject and
immediately validating the resulting token string with the same Signing Key
succeeds and recovers exactly that subject. -/
theorem issue_validate_roundtrip (subject key : String) (now : Nat) :
    validate_refresh (create_token ⟨some subject, none⟩ "TOKEN" key now)
      key now = .ok subject := by
  simp [validate_refresh, create_token, jwt_decode,
    ACCESS_TOKEN_EXPIRE_MINUTES]

/-- C6: the expiry comparison is inclusive — a token whose `exp` claim
equals the current evaluation time is rejected by decoding as expired, and
the validation used for renewal surfaces this as the single `InvalidToken`
outcome. -/
theorem expiry_boundary_inclusive (s : Option String) (key u : String)
    (e : Nat) :
    jwt_decode (.signed ⟨s, some e⟩ key) key e = .error .expired ∧
    validate_refresh (.signed ⟨some u, some e⟩ key) key e
      = .error .invalidToken := by
  simp [jwt_decode, validate_refresh]

/-- C1, evaluated on the code at the failing input: a valid Access-kind
token (minted by `create_token` with `token_type="TOKEN"`, 15-minute TTL)
presented to `get_new_refresh_token` is accepted — the call returns `.ok`
rather than the `InvalidToken` failure the claim requires — and the token it
mints carries the 7-day `REFRESH` TTL, not an Access TTL.  Tokens carry no
kind claim, so no kind check is possible. -/
theorem renew_accepts_access_token :
    get_new_refresh_token (create_token ⟨some "alice", none⟩ "TOKEN" "k" 0)
      "k" 0
      = .ok (.signed ⟨some "alice", some (7 * 24 * 60 * 60)⟩ "k") := by
  rfl

/-- C2, evaluated on the code at the failing input: renewing a valid refresh
token for "bob" at time 100 yields a token whose `exp` is the renewal time
plus the 7-day `REFRESH` TTL (`create_token` is called with
`token_type="REFRESH"` at `src/auth/oauth2.py` line 36), not the renewal
time plus the 15-minute Access TTL the claim requires. -/
theorem renew_sets_seven_day_expiry :
    get_new_refresh_token (create_token ⟨some "bob", none⟩ "REFRESH" "k" 0)
      "k" 100
      = .ok (.signed ⟨some "bob", some (100 + 7 * 24 * 60 * 60)⟩ "k") ∧
    100 + 7 * 24 * 60 * 60 ≠ 100 + ACCESS_TOKEN_EXPIRE_MINUTES * 60 := by
  constructor
  · rfl
  · decide

/-! ## Credential store (`src/controller/sql.py`) -/

/-- The opaque value produced by `bcrypt.hashpw(password, salt)`: an
idealized collision-free salted hash, recording the salt and the password it
was derived from.  `bcrypt.checkpw` succeeds exactly when the candidate
password equals the hashed one. -/
structure HashedPassword where
  salt : Nat
  hashedOf : String
deriving DecidableEq, Repr

/-- `bcrypt.hashpw` (idealized, see `HashedPassword`). -/
def hashpw (password : String) (salt : Nat) : HashedPassword :=
  ⟨salt, password⟩

/-- `bcrypt.checkpw` (idealized, see `HashedPassword`). -/
def checkpw (password : String) (h : HashedPassword) : Bool :=
  h.hashedOf == password

/-- The `users` table: rows of `(username, password_hash)`, in insertion
order. -/
abbrev UsersDb := List (String × HashedPassword)

/-- `Sql.user_exists` from `src/controller/sql.py` lines 15-22: `SELECT 1
FROM users WHERE username = ?` followed by `fetchone` — true exactly when
some row has the given username (the I/O-failure branch is not modelled; the
in-memory table cannot fail). -/
def user_exists (db : UsersDb) (username : String) : Bool :=
  db.any (fun r => r.1 == username)

/-- The error `create_user` returns when the `INSERT` fails. -/
inductive SqlError where
  | uniqueViolation
deriving DecidableEq, Repr

/-- Modelled from the spec: the `users` table schema is created outside
`src/` (only the tests create it); per the spec's §5-§6 persisted-state
layout the `username` column carries a unique constraint, so an `INSERT` for
an already-present username fails with an integrity error. -/
def insert_user (db : UsersDb) (username : String) (h : HashedPassword) :
    Except SqlError UsersDb :=
  if user_exists db username then .error .uniqueViolation
  else .ok (db ++ [(username, h)])

/-- `Sql.create_user` from `src/controller/sql.py` lines 24-38: generate a
salt (here an explicit `salt` argument), hash the password with it, and
`INSERT` the row, returning the storage error if the insert raises. -/
def create_user (db : UsersDb) (username password : String) (salt : Nat) :
    Except SqlError UsersDb :=
  insert_user db username (hashpw password salt)

/-- `Sql.user_login` from `src/controller/sql.py` lines 40-60: fetch the
stored hash for the username; `(False, "User not found")` when no row
exists, `(True, None)` when `bcrypt.checkpw` succeeds, and
`(False, "Invalid password")` when it fails. -/
def user_login (db : UsersDb) (username password : String) :
    Bool × Option String :=
  match db.find? (fun r => r.1 == username) with
  | none => (false, some "User not found")
  | some r =>
    if checkpw password r.2 then (true, none)
    else (false, some "Invalid password")

/-- In a table with no row for `username`, `find?` comes up empty. -/
theorem find?_eq_none_of_not_exists (db : UsersDb) (username : String)
    (h : user_exists db username = false) :
    db.find? (fun r => r.1 == username) = none := by
  induction db with
  | nil => rfl
  | cons hd tl ih =>
    simp only [user_exists, List.any_cons, Bool.or_eq_false_iff] at h
    simp only [List.find?_cons, h.1, ih h.2]

/-- Appending a fresh row for `username` makes it the row `find?` returns. -/
theorem find?_append_fresh (db : UsersDb) (username : String)
    (h : HashedPassword) (hfree : user_exists db username = false) :
    (db ++ [(username, h)]).find? (fun r => r.1 == username)
      = some (username, h) := by
  induction db with
  | nil => simp [List.find?]
  | cons hd tl ih =>
    simp only [user_exists, List.any_cons, Bool.or_eq_false_iff] at hfree
    simp only [List.cons_append, List.find?_cons, hfree.1]
    exact ih hfree.2

/-- C7 counterexample: on a store holding only "alice", a login for the
absent user "bob" and a login for "alice" with the wrong password both
return `success = false`, but with an error detail set in both cases and a
*different* detail in each — "User not found" versus "Invalid password" —
so the two failure causes are distinguishable to the caller, contrary to
the claim that neither call reveals which condition occurred. -/
theorem user_login_reveals_failure_cause :
    user_login [("alice", hashpw "pw" 0)] "bob" "pw"
      = (false, some "User not found") ∧
    user_login [("alice", hashpw "pw" 0)] "alice" "wrong"
      = (false, some "Invalid password") ∧
    (some "User not found" : Option String) ≠ some "Invalid password" ∧
    (some "User not found" : Option String) ≠ none := by
  refine ⟨by decide, by decide, by decide, by decide⟩

/-- C7 amended: both failure cases of `user_login` return `success = false`,
but each also returns a distinguishing detail string: "User not found" when
the username has no row, "Invalid password" when the row exists and the hash
comparison fails.  The two conditions are therefore distinguishable to the
caller of `user_login`. -/
theorem user_login_failure_details (db : UsersDb) (u p : String) :
    (db.find? (fun r => r.1 == u) = none →
      user_login db u p = (false, some "User not found")) ∧
    (∀ r, db.find? (fun r => r.1 == u) = some r → checkpw p r.2 = false →
      user_login db u p = (false, some "Invalid password")) := by
  constructor
  · intro h
    simp [user_login, h]
  · intro r h hc
    simp [user_login, h, hc]

/-- Witness for C7's amended statement at a concrete store. -/
theorem user_login_failure_details_witness :
    user_login [("carol", hashpw "s3cret!" 7)] "dave" "s3cret!"
      = (false, some "User not found") ∧
    user_login [("carol", hashpw "s3cret!" 7)] "carol" "nope"
      = (false, some "Invalid password") :=
  ⟨(user_login_failure_details [("carol", hashpw "s3cret!" 7)] "dave"
      "s3cret!").1 (by decide),
   (user_login_failure_details [("carol", hashpw "s3cret!" 7)] "carol"
      "nope").2 ("carol", hashpw "s3cret!" 7) (by decide) (by decide)⟩

/-- C8: on a store where `u` is free, registering `u` with password `p`
succeeds (appending the salted hash of `p`), after which authenticating `u`
with `p` succeeds with no error, and authenticating `u` with any `p' ≠ p`
fails. -/
theorem register_then_authenticate (db : UsersDb) (u p : String) (salt : Nat)
    (hfree : user_exists db u = false) :
    create_user db u p salt = .ok (db ++ [(u, hashpw p salt)]) ∧
    user_login (db ++ [(u, hashpw p salt)]) u p = (true, none) ∧
    ∀ p', p' ≠ p →
      user_login (db ++ [(u, hashpw p salt)]) u p'
        = (false, some "Invalid password") := by
  refine ⟨by simp [create_user, insert_user, hfree], ?_, ?_⟩
  · simp only [user_login, find?_append_fresh db u (hashpw p salt) hfree]
    simp [checkpw, hashpw]
  · intro p' hp
    simp only [user_login, find?_append_fresh db u (hashpw p salt) hfree]
    simp [checkpw, hashpw, Ne.symm hp]

/-- Witness for C8 at a concrete store: register "alice"/"s3cret!" into the
empty store, then authenticate with the right and a wrong password. -/
theorem register_then_authenticate_witness :
    create_user [] "alice" "s3cret!" 0
      = .ok ([] ++ [("alice", hashpw "s3cret!" 0)]) ∧
    user_login ([] ++ [("alice", hashpw "s3cret!" 0)]) "alice" "s3cret!"
      = (true, none) ∧
    user_login ([] ++ [("alice", hashpw "s3cret!" 0)]) "alice" "wrong"
      = (false, some "Invalid password") :=
  ⟨(register_then_authenticate [] "alice" "s3cret!" 0 (by decide)).1,
   (register_then_authenticate [] "alice" "s3cret!" 0 (by decide)).2.1,
   (register_then_authenticate [] "alice" "s3cret!" 0 (by decide)).2.2
     "wrong" (by decide)⟩

/-! ## Concurrent registration (`register_user`, `src/api.py` lines 68-102)

The endpoint performs `user_exists` and then `create_user` — two separate
storage round trips, each a suspension point of the async handler.  Two
concurrent requests for the same username are modelled as an interleaving of
these round trips, chosen by a schedule. -/

/-- The outcome of one `register_user` request, as the endpoint's responses
distinguish them: HTTP 200 success, HTTP 400 "A user with that username
already exists", or HTTP 500 "An error occurred while registering the user"
(the branch taken when `create_user` returns an error, including the unique
constraint violation). -/
inductive RegOutcome where
  | success
  | alreadyExists
  | storageError
deriving DecidableEq, Repr

/-- The control state of one in-flight `register_user` request: before its
existence check, after it (recording what the check saw), or finished with
an outcome. -/
inductive RegState where
  | start
  | checked (found : Bool)
  | finished (o : RegOutcome)
deriving DecidableEq, Repr

/-- One storage round trip of a `register_user` request for username `u`,
password `p`, generated salt `salt`, following the handler's control flow:
run the existence check; a positive check yields the 400 response; a
negative check proceeds to `create_user`, whose success yields the 200
response and whose error yields the 500 response.  A finished request takes
no further steps. -/
def regStep (db : UsersDb) (c : RegState) (u p : String) (salt : Nat) :
    UsersDb × RegState :=
  match c with
  | .start => (db, .checked (user_exists db u))
  | .checked true => (db, .finished .alreadyExists)
  | .checked false =>
    match create_user db u p salt with
    | .ok db' => (db', .finished .success)
    | .error _ => (db, .finished .storageError)
  | .finished o => (db, .finished o)

/-- Two concurrent `register_user` requests for the same username sharing
one store. -/
structure RegSystem where
  db : UsersDb
  c1 : RegState
  c2 : RegState
deriving DecidableEq, Repr

/-- Advance the request selected by `turn` (true = first request, with
password `p1` and salt `s1`) by one storage round trip. -/
def sysStep (u p1 p2 : String) (s1 s2 : Nat) (s : RegSystem) (turn : Bool) :
    RegSystem :=
  if turn then
    ⟨(regStep s.db s.c1 u p1 s1).1, (regStep s.db s.c1 u p1 s1).2, s.c2⟩
  else
    ⟨(regStep s.db s.c2 u p2 s2).1, s.c1, (regStep s.db s.c2 u p2 s2).2⟩

/-- Run a schedule of interleaved round trips. -/
def runSched (u p1 p2 : String) (s1 s2 : Nat) (s : RegSystem) :
    List Bool → RegSystem
  | [] => s
  | t :: ts => runSched u p1 p2 s1 s2 (sysStep u p1 p2 s1 s2 s t) ts

/-- Number of rows the `users` table holds for `u`. -/
def rowsFor (db : UsersDb) (u : String) : Nat :=
  (db.filter (fun r => r.1 == u)).length

/-- Whether a request has finished successfully. -/
def isSuccess : RegState → Bool
  | .finished .success => true
  | _ => false

/-- The number of successes a request contributes (0 or 1). -/
def succCount (c : RegState) : Nat :=
  if isSuccess c then 1 else 0

/-- A request state that can only be reached after the shared store already
held a row for the username: a positive existence check, the 400 outcome it
leads to, or the 500 outcome of a failed insert. -/
def sawRow : RegState → Bool
  | .checked true => true
  | .finished .alreadyExists => true
  | .finished .storageError => true
  | _ => false

/-- Inductive invariant of the two-request system: the row count for `u`
equals the number of successes and never exceeds one, and a request that
saw a row for `u` implies the other request succeeded (the two requests are
the only writers of `u`). -/
def RegInv (u : String) (db : UsersDb) (c1 c2 : RegState) : Prop :=
  rowsFor db u = succCount c1 + succCount c2 ∧
  rowsFor db u ≤ 1 ∧
  (sawRow c1 = true → isSuccess c2 = true) ∧
  (sawRow c2 = true → isSuccess c1 = true)

/-- The store holds no row for `u` exactly when `user_exists` is false. -/
theorem rowsFor_eq_zero_iff (db : UsersDb) (u : String) :
    rowsFor db u = 0 ↔ user_exists db u = false := by
  induction db with
  | nil => simp [rowsFor, user_exists]
  | cons hd tl ih =>
    simp only [rowsFor, user_exists, List.filter_cons, List.any_cons] at *
    cases h : (hd.1 == u) <;> simp [h, ih]

/-- Appending a row for `u` increments the row count for `u`. -/
theorem rowsFor_append_self (db : UsersDb) (u : String) (h : HashedPassword) :
    rowsFor (db ++ [(u, h)]) u = rowsFor db u + 1 := by
  simp [rowsFor, List.filter_append, List.filter_cons]

/-- A positive existence check means at least one row. -/
theorem one_le_rowsFor_of_user_exists (db : UsersDb) (u : String)
    (h : user_exists db u = true) : 1 ≤ rowsFor db u := by
  rcases Nat.eq_zero_or_pos (rowsFor db u) with h0 | h1
  · rw [(rowsFor_eq_zero_iff db u).mp h0] at h
    exact absurd h (by simp)
  · exact h1

/-- A state contributing a success count is exactly a successful state. -/
theorem succCount_eq_one_iff (c : RegState) :
    succCount c = if isSuccess c then 1 else 0 := rfl

/-- The invariant is symmetric in the two requests. -/
theorem RegInv.swap (u : String) (db : UsersDb) (c1 c2 : RegState)
    (h : RegInv u db c1 c2) : RegInv u db c2 c1 := by
  obtain ⟨hsum, hle, h12, h21⟩ := h
  exact ⟨by omega, hle, h21, h12⟩

/-- One round trip of the first request preserves the invariant. -/
theorem regStep_preserves (u p : String) (salt : Nat) (db : UsersDb)
    (c1 c2 : RegState) (h : RegInv u db c1 c2) :
    RegInv u (regStep db c1 u p salt).1 (regStep db c1 u p salt).2 c2 := by
  obtain ⟨hsum, hle, h12, h21⟩ := h
  cases c1 with
  | start =>
    simp only [regStep]
    refine ⟨?_, hle, ?_, ?_⟩
    · simpa [succCount, isSuccess] using hsum
    · cases hfound : user_exists db u with
      | false => intro hb; simp [sawRow] at hb
      | true =>
        intro _
        have hge := one_le_rowsFor_of_user_exists db u hfound
        cases hs : isSuccess c2 with
        | true => rfl
        | false =>
          rw [succCount_eq_one_iff, succCount_eq_one_iff, hs] at hsum
          simp [isSuccess] at hsum
          omega
    · intro hb
      exact absurd (h21 hb) (by simp [isSuccess])
  | checked found =>
    cases found with
    | true =>
      simp only [regStep]
      refine ⟨?_, hle, ?_, ?_⟩
      · simpa [succCount, isSuccess] using hsum
      · intro _
        exact h12 (by simp [sawRow])
      · intro hb
        exact absurd (h21 hb) (by simp [isSuccess])
    | false =>
      simp only [regStep, create_user, insert_user]
      cases hfound : user_exists db u with
      | true =>
        simp only [hfound, if_true]
        refine ⟨?_, hle, ?_, ?_⟩
        · simpa [succCount, isSuccess] using hsum
        · intro _
          have hge := one_le_rowsFor_of_user_exists db u hfound
          cases hs : isSuccess c2 with
          | true => rfl
          | false =>
            rw [succCount_eq_one_iff, succCount_eq_one_iff, hs] at hsum
            simp [isSuccess] at hsum
            omega
        · intro hb
          exact absurd (h21 hb) (by simp [isSuccess])
      | false =>
        simp only [hfound, if_false, Bool.false_eq_true]
        have h0 : rowsFor db u = 0 := (rowsFor_eq_zero_iff db u).mpr hfound
        have hc2 : succCount c2 = 0 := by
          rw [h0] at hsum
          cases hs : isSuccess c2 with
          | false => rw [succCount_eq_one_iff, hs]; rfl
          | true =>
            rw [succCount_eq_one_iff, succCount_eq_one_iff, hs] at hsum
            simp [isSuccess] at hsum
        refine ⟨?_, ?_, ?_, ?_⟩
        · rw [rowsFor_append_self db u (hashpw p salt), h0, hc2]
          simp [succCount, isSuccess]
        · rw [rowsFor_append_self db u (hashpw p salt), h0]
        · intro hb; simp [sawRow] at hb
        · intro _; simp [isSuccess]
  | finished o =>
    simp only [regStep]
    exact ⟨hsum, hle, h12, h21⟩

/-- Each scheduled round trip preserves the invariant. -/
theorem sysStep_preserves (u p1 p2 : String) (s1 s2 : Nat) (s : RegSystem)
    (turn : Bool) (h : RegInv u s.db s.c1 s.c2) :
    RegInv u (sysStep u p1 p2 s1 s2 s turn).db
      (sysStep u p1 p2 s1 s2 s turn).c1 (sysStep u p1 p2 s1 s2 s turn).c2 := by
  obtain ⟨db, c1, c2⟩ := s
  cases turn with
  | true =>
    simp only [sysStep, if_true]
    exact regStep_preserves u p1 s1 db c1 c2 h
  | false =>
    simp only [sysStep, Bool.false_eq_true, if_false]
    exact RegInv.swap u _ _ _
      (regStep_preserves u p2 s2 db c2 c1 (RegInv.swap u db c1 c2 h))

/-- The invariant holds after running any schedule. -/
theorem runSched_preserves (u p1 p2 : String) (s1 s2 : Nat)
    (sched : List Bool) (s : RegSystem) (h : RegInv u s.db s.c1 s.c2) :
    RegInv u (runSched u p1 p2 s1 s2 s sched).db
      (runSched u p1 p2 s1 s2 s sched).c1
      (runSched u p1 p2 s1 s2 s sched).c2 := by
  induction sched generalizing s with
  | nil => exact h
  | cons t ts ih =>
    exact ih _ (sysStep_preserves u p1 p2 s1 s2 s t h)

/-- C9 counterexample: from an empty store, the racy interleaving
check-check-insert-insert of two concurrent registrations of "alice" makes
the first request succeed while the second request's insert hits the unique
constraint and finishes with the generic storage-error outcome (HTTP 500) —
not the `AlreadyExists` outcome (HTTP 400) the claim states — and the claim
also asserts uniqueness is enforced by the storage layer *rather than* by a
check-then-insert sequence, whereas both requests here did run the handler's
check-then-insert sequence. -/
theorem concurrent_register_race_counterexample :
    (runSched "alice" "p1" "p2" 0 1 ⟨[], .start, .start⟩
        [true, false, true, false]).c1 = .finished .success ∧
    (runSched "alice" "p1" "p2" 0 1 ⟨[], .start, .start⟩
        [true, false, true, false]).c2 = .finished .storageError ∧
    RegOutcome.storageError ≠ RegOutcome.alreadyExists := by
  refine ⟨by decide, by decide, by decide⟩

/-- C9 amended: for every interleaving of two concurrent registrations of a
username the store does not yet hold, if both requests finish, then exactly
one succeeds; the other finishes with `AlreadyExists` (its check saw the
winner's row) or with the storage error produced by the unique-constraint
violation (surfaced by the endpoint as a generic 500 failure, not as
`AlreadyExists`); and the store ends with exactly one row for the username —
never two inserts, never an overwrite. -/
theorem concurrent_register_outcomes (sched : List Bool) (db0 : UsersDb)
    (u p1 p2 : String) (s1 s2 : Nat) (o1 o2 : RegOutcome)
    (hfree : user_exists db0 u = false)
    (h1 : (runSched u p1 p2 s1 s2 ⟨db0, .start, .start⟩ sched).c1
      = .finished o1)
    (h2 : (runSched u p1 p2 s1 s2 ⟨db0, .start, .start⟩ sched).c2
      = .finished o2) :
    ((o1 = .success ∧ (o2 = .alreadyExists ∨ o2 = .storageError)) ∨
     (o2 = .success ∧ (o1 = .alreadyExists ∨ o1 = .storageError))) ∧
    rowsFor (runSched u p1 p2 s1 s2 ⟨db0, .start, .start⟩ sched).db u = 1 := by
  have h0 : rowsFor db0 u = 0 := (rowsFor_eq_zero_iff db0 u).mpr hfree
  have hinv0 : RegInv u db0 .start .start := by
    refine ⟨?_, ?_, ?_, ?_⟩
    · simp [h0, succCount, isSuccess]
    · omega
    · intro hb; simp [sawRow] at hb
    · intro hb; simp [sawRow] at hb
  have hinv := runSched_preserves u p1 p2 s1 s2 sched ⟨db0, .start, .start⟩
    hinv0
  obtain ⟨hsum, hle, h12, h21⟩ := hinv
  rw [h1, h2] at hsum h12 h21
  cases o1 <;> cases o2 <;>
    simp_all [succCount, isSuccess, sawRow]

/-- Witness for C9's amended statement: the serial interleaving from the
empty store, where the second request's check sees the winner's row and
yields `AlreadyExists`. -/
theorem concurrent_register_outcomes_witness :
    ((RegOutcome.success = RegOutcome.success ∧
       (RegOutcome.alreadyExists = RegOutcome.alreadyExists ∨
        RegOutcome.alreadyExists = RegOutcome.storageError)) ∨
     (RegOutcome.alreadyExists = RegOutcome.success ∧
       (RegOutcome.success = RegOutcome.alreadyExists ∨
        RegOutcome.success = RegOutcome.storageError))) ∧
    rowsFor (runSched "bob" "x" "y" 0 1 ⟨[], .start, .start⟩
      [true, true, false, false]).db "bob" = 1 :=
  concurrent_register_outcomes [true, true, false, false] [] "bob" "x" "y"
    0 1 .success .alreadyExists (by decide) (by decide) (by decide)

end EasyFinance
